import Mathlib

/-!
# Verification of the linked-words game server against its specification

Shallow embedding of the two server variants found in the repository:

* the in-memory variant (srcIndex namespace, from src/src/index.js), whose
  Game class (game.js) is not in the source tree and is therefore modelled
  from the spec where needed;
* the Redis-persisted variant (fetchers namespace, from the server portion of
  src/public/js/fetchers.js), whose RedisClient (redis.js) is not in the
  source tree and is modelled from the spec and the repository README layout.

JavaScript peculiarities that the claims depend on are embedded explicitly:
loose dynamic values (JVal) with strict equality and truthiness, and string
truthiness where the code relies on it (empty string = absent).
-/

/-- The four word roles (spec design note: enumerated role type). -/
inductive Role
  | agent
  | bystander
  | assassin
  | decoy
deriving DecidableEq, Repr

/-- Per-word state: one role and one reveal flag per team (spec data model,
README packed string role1,role2,revealed1,revealed2). -/
structure WordEntry where
  roleOne : Role
  roleTwo : Role
  revealedOne : Bool
  revealedTwo : Bool
deriving DecidableEq, Repr

/-- A dynamically typed JavaScript value, as far as the embedded code needs:
numbers, strings and undefined.  Used where the source compares or tests
values whose runtime type varies (ws.teamId). -/
inductive JVal
  | num (n : Nat)
  | str (s : String)
  | undef
deriving DecidableEq, Repr

/-- JavaScript strict equality (===) on embedded dynamic values: values of
different runtime types are never equal. -/
def JVal.jeq : JVal → JVal → Bool
  | .num a, .num b => a == b
  | .str a, .str b => a == b
  | .undef, .undef => true
  | _, _ => false

/-- JavaScript truthiness of an embedded dynamic value: 0, the empty string
and undefined are falsy. -/
def JVal.truthy : JVal → Bool
  | .num n => n != 0
  | .str s => s != ""
  | .undef => false

/-- Outbound socket event payloads, one constructor per outbound message
shape the embedded handlers produce (shapes differ slightly between the two
server variants; the I suffix marks the in-memory variant, R the persisted
one where they differ). -/
inductive Event
  | turns (turnsLeft : Int)
  | clueGiven (playerGivingClue : String) (number : Int) (word : String)
  | playerJoinedI (count : Nat) (playerName : Option String) (player : String)
  | playerLeftI (count : Nat) (playerName : Option String)
  | playerChangedI (player : String)
  | wordsI (gameId : String) (raw : Bool) (viewWords : List (String × Role × Bool))
      (rawWords : List (String × WordEntry))
  | guessI (res : Option (String × Role × Bool))
  | playerLeftR (count : Nat) (playerName : String) (playerId : Option Nat) (teamId : JVal)
  | guessR (word : String) (role : Role) (turnsLeft alOne alTwo : Int)
deriving DecidableEq, Repr

/-- An observable output of a handler: a write to one socket (by connection
id) or a push-notification request to the external collaborator. -/
inductive Out
  | sock (connId : Nat) (e : Event)
  | notify (tokens : List String) (title : String) (body : String)
deriving DecidableEq, Repr

/-- Association-list lookup by string key (the global games / sockets maps of
the source are plain JS objects keyed by gameId). -/
def lookupKey {β : Type} : List (String × β) → String → Option β
  | [], _ => none
  | (k, v) :: rest, key => if k = key then some v else lookupKey rest key

/-- Association-list update: replace the first binding of the key, or append
a new binding (JS object property assignment). -/
def setKey {β : Type} : List (String × β) → String → β → List (String × β)
  | [], key, v => [(key, v)]
  | (k, w) :: rest, key, v =>
      if k = key then (k, v) :: rest else (k, w) :: setKey rest key v

theorem lookupKey_setKey_same {β : Type} (l : List (String × β)) (k : String) (v : β) :
    lookupKey (setKey l k v) k = some v := by
  induction l with
  | nil => simp [setKey, lookupKey]
  | cons hd tl ih =>
      obtain ⟨k', w⟩ := hd
      by_cases h : k' = k
      · simp [setKey, lookupKey, h]
      · simp [setKey, lookupKey, h, ih]

theorem lookupKey_setKey_other {β : Type} (l : List (String × β)) (k k' : String) (v : β)
    (h : k ≠ k') : lookupKey (setKey l k v) k' = lookupKey l k' := by
  induction l with
  | nil => simp [setKey, lookupKey, h]
  | cons hd tl ih =>
      obtain ⟨k0, w⟩ := hd
      by_cases h0 : k0 = k
      · subst h0
        simp [setKey, lookupKey, h]
      · simp [setKey, lookupKey, h0, ih]

/-! ## In-memory variant (src/src/index.js)

The Game class it uses lives in game.js, which is not under src/; its methods
are modelled from the spec (sections 3, 4.3, 4.4) and marked as such.  The
orchestration below (handleRequest and the handlers) is translated directly
from src/src/index.js.  Randomness (the word table generated by new Game())
is supplied as an explicit fresh-game argument. -/

/-- The current-turn record of the in-memory Game (spec 4.4 ClueGiven state). -/
structure MTurn where
  playerGivingClue : String
  clueWord : String
  guessesLeft : Int
deriving DecidableEq, Repr

/-- The in-memory Game object (game.js is not under src/; fields follow the
spec data model: word table, turn record, turnsLeft, and one player slot per
team holding a display name and a notification token, with the empty string
standing for the absent JS value). -/
structure MGame where
  words : List (String × WordEntry)
  currentTurn : Option MTurn
  turnsLeft : Int
  nameOne : String
  nameTwo : String
  tokenOne : String
  tokenTwo : String
deriving DecidableEq, Repr

/-- Modelled from the spec: Game.getPlayerName (game.js not under src/) —
returns the display name stored for a team slot. -/
def MGame.getPlayerName (g : MGame) (player : String) : String :=
  if player = "one" then g.nameOne
  else if player = "two" then g.nameTwo
  else ""

/-- Modelled from the spec: Game.getTokenForPlayer (game.js not under src/) —
returns the device token associated with a team slot (team membership tuple
device token, spec section 3). -/
def MGame.getTokenForPlayer (g : MGame) (player : String) : String :=
  if player = "one" then g.tokenOne
  else if player = "two" then g.tokenTwo
  else ""

/-- Modelled from the spec: Game.setPlayerName (game.js not under src/) —
addToTeam of spec 4.3: with an explicit slot, installs name and token there;
without one, picks a free slot; returns the assigned slot id (empty string
when no slot was assigned). -/
def MGame.setPlayerName (g : MGame) (name player token : String) : MGame × String :=
  if player = "one" then ({ g with nameOne := name, tokenOne := token }, "one")
  else if player = "two" then ({ g with nameTwo := name, tokenTwo := token }, "two")
  else if g.nameOne = "" then ({ g with nameOne := name, tokenOne := token }, "one")
  else if g.nameTwo = "" then ({ g with nameTwo := name, tokenTwo := token }, "two")
  else (g, "")

/-- Modelled from the spec: Game.getTurnsLeft (game.js not under src/). -/
def MGame.getTurnsLeft (g : MGame) : Int := g.turnsLeft

/-- Modelled from the spec: Game.getCurrentClue (game.js not under src/) —
the current turn record, if any. -/
def MGame.getCurrentClue (g : MGame) : Option MTurn := g.currentTurn

/-- Modelled from the spec: Game.giveClueForTurn (game.js not under src/) —
spec 4.4: Idle to ClueGiven with guessesLeft = number + 1; re-issuing by the
same team overwrites; a clue active for a different team leaves the record
unchanged (the current clue is returned either way). -/
def MGame.giveClueForTurn (g : MGame) (player word : String) (number : Int) : MGame × MTurn :=
  match g.currentTurn with
  | none =>
      let t : MTurn := ⟨player, word, number + 1⟩
      ({ g with currentTurn := some t }, t)
  | some t =>
      if t.playerGivingClue = player then
        let t2 : MTurn := ⟨player, word, number + 1⟩
        ({ g with currentTurn := some t2 }, t2)
      else (g, t)

/-- Modelled from the spec: Game.endTurn (game.js not under src/) — spec 4.4:
ClueGiven or Idle to Idle, always decrementing turnsLeft by one. -/
def MGame.endTurn (g : MGame) : MGame :=
  { g with currentTurn := none, turnsLeft := g.turnsLeft - 1 }

/-- Role and reveal flag of a word entry for a team slot id. -/
def WordEntry.roleFor (e : WordEntry) (player : String) : Role :=
  if player = "one" then e.roleOne else e.roleTwo

/-- Reveal flag of a word entry for a team slot id. -/
def WordEntry.revealedFor (e : WordEntry) (player : String) : Bool :=
  if player = "one" then e.revealedOne else e.revealedTwo

/-- Mark a word entry revealed for a team slot id (never touching the other
flag of the other team, spec 4.3 recordGuess). -/
def WordEntry.revealFor (e : WordEntry) (player : String) : WordEntry :=
  if player = "one" then { e with revealedOne := true } else { e with revealedTwo := true }

/-- Modelled from the spec: Game.guess (game.js not under src/) — spec 4.4:
records the guess via recordGuess (idempotent on an already revealed word),
decrements guessesLeft; the turn auto-ends (turn cleared, turnsLeft
decremented) when the budget reaches zero or the revealed role is not agent.
The returned record carries the word, its role for the guessing team and
whether the turn changed hands. -/
def MGame.guess (g : MGame) (word player : String) : MGame × Option (String × Role × Bool) :=
  match g.currentTurn with
  | none => (g, none)
  | some t =>
      match lookupKey g.words word with
      | none => (g, none)
      | some e =>
          if e.revealedFor player then (g, none)
          else
            let e2 := e.revealFor player
            let words2 := setKey g.words word e2
            let gl := t.guessesLeft - 1
            let ended := gl = 0 ∨ e.roleFor player ≠ Role.agent
            let g2 :=
              if ended then
                { g with words := words2, currentTurn := none, turnsLeft := g.turnsLeft - 1 }
              else
                { g with words := words2, currentTurn := some { t with guessesLeft := gl } }
            (g2, some (word, e.roleFor player, ended))

/-- Modelled from the spec: Game.getViewForPlayer (game.js not under src/) —
wordsView of spec 4.3: the word table filtered to the own role and
reveal flag only. -/
def MGame.getViewForPlayer (g : MGame) (player : String) : List (String × Role × Bool) :=
  g.words.map (fun wv =>
    if player = "one" then (wv.1, wv.2.roleOne, wv.2.revealedOne)
    else (wv.1, wv.2.roleTwo, wv.2.revealedTwo))

/-- Modelled from the spec: Game.getWords (game.js not under src/) — the raw
word table of the spec data model (the roles and reveal flags of both teams). -/
def MGame.getWords (g : MGame) : List (String × WordEntry) := g.words

/-- A live websocket connection of the in-memory server, with the properties
index.js stores on the ws object (gameId, player slot, playerName) plus its
identity and readyState. -/
structure WsConn where
  id : Nat
  gameId : Option String
  player : String
  playerName : Option String
  readyState : Nat
deriving DecidableEq, Repr

/-- The global mutable maps of index.js: sockets (gameId to the set of
connection ids), the connection registry backing those ids, and games
(gameId to Game). -/
structure Server where
  sockets : List (String × List Nat)
  conns : List WsConn
  games : List (String × MGame)
deriving DecidableEq, Repr

/-- Look up a connection object by id in the registry. -/
def lookupConn (cs : List WsConn) (i : Nat) : Option WsConn :=
  cs.find? (fun c => c.id == i)

/-- index.js send: writes to the client only when its readyState is 1. -/
def send (client : WsConn) (data : Event) : List Out :=
  if client.readyState = 1 then [Out.sock client.id data] else []

/-- index.js broadcast: when a connection set is registered for the game,
writes to every member whose readyState is 1 (each iteration step is exactly
the guard-plus-write of send); with no registered set it does nothing. -/
def broadcast (sk : List (String × List Nat)) (cs : List WsConn) (gameId : String)
    (data : Event) : List Out :=
  match lookupKey sk gameId with
  | none => []
  | some ids => (ids.filterMap (fun i => lookupConn cs i)).flatMap (fun client => send client data)

/-- index.js getOrCreateGame: return the stored game or install the freshly
constructed one (the new Game() word table is the fresh argument). -/
def getOrCreateGameG (gs : List (String × MGame)) (gameId : String) (fresh : MGame) :
    MGame × List (String × MGame) :=
  match lookupKey gs gameId with
  | some g => (g, gs)
  | none => (fresh, setKey gs gameId fresh)

/-- index.js getWordsForPlayer: the per-player view when a player slot is
resolved, otherwise the raw word table. -/
def getWordsForPlayer (gs : List (String × MGame)) (gameId : String) (player : String)
    (fresh : MGame) : List (String × MGame) × Bool × List (String × Role × Bool) ×
      List (String × WordEntry) :=
  let (game, gs2) := getOrCreateGameG gs gameId fresh
  if player ≠ "" then (gs2, false, game.getViewForPlayer player, [])
  else (gs2, true, [], game.getWords)

/-- index.js iOSNotify: with a player slot, the registration target is that
token of that slot; otherwise the truthy tokens of both slots.  The notification request
is fire-and-forget (an Out.notify record). -/
def iOSNotifyI (gs : List (String × MGame)) (gameId : String) (playerId : String)
    (title body : String) (fresh : MGame) : List (String × MGame) × List Out :=
  let (game, gs2) := getOrCreateGameG gs gameId fresh
  let tokens :=
    if playerId ≠ "" then [game.getTokenForPlayer playerId]
    else [game.getTokenForPlayer "one", game.getTokenForPlayer "two"].filter (fun t => t ≠ "")
  (gs2, [Out.notify tokens title body])

/-- index.js maybeSendCurrentClue: unicast the current clue, if any, with
number taken from the turn record guessesLeft. -/
def maybeSendCurrentClue (c : WsConn) (gs : List (String × MGame)) (gameId : String)
    (fresh : MGame) : List (String × MGame) × List Out :=
  let (game, gs2) := getOrCreateGameG gs gameId fresh
  match game.getCurrentClue with
  | none => (gs2, [])
  | some clue =>
      (gs2, send c (Event.clueGiven clue.playerGivingClue clue.guessesLeft clue.clueWord))

/-- index.js sendWholeGameState: unicast the words view for the player of the connection, the turns counter, and the current clue if one is active. -/
def sendWholeGameStateI (c : WsConn) (gs : List (String × MGame)) (gameId : String)
    (fresh : MGame) : List (String × MGame) × List Out :=
  let (gs2, raw, view, rawWords) := getWordsForPlayer gs gameId c.player fresh
  let o1 := send c (Event.wordsI gameId raw view rawWords)
  let (game, gs3) := getOrCreateGameG gs2 gameId fresh
  let o2 := send c (Event.turns game.getTurnsLeft)
  let (gs4, o3) := maybeSendCurrentClue c gs3 gameId fresh
  (gs4, o1 ++ o2 ++ o3)

/-- index.js giveClue: install the clue through the Game, broadcast turns only
if turnsLeft changed, notify the other team slot, then broadcast clueGiven
with number taken from the returned clue record guessesLeft. -/
def giveClueI (sk : List (String × List Nat)) (cs : List WsConn)
    (gs : List (String × MGame)) (gameId player word : String) (number : Int)
    (fresh : MGame) : List (String × MGame) × List Out :=
  let (game, gs2) := getOrCreateGameG gs gameId fresh
  let turnsLeftBefore := game.getTurnsLeft
  let (game2, clue) := game.giveClueForTurn player word number
  let gs3 := setKey gs2 gameId game2
  let turnsLeftAfter := game2.getTurnsLeft
  let o1 := if turnsLeftBefore ≠ turnsLeftAfter then
      broadcast sk cs gameId (Event.turns turnsLeftAfter) else []
  let otherPlayer := if player = "one" then "two" else "one"
  let (gs4, o2) := iOSNotifyI gs3 gameId otherPlayer "A clue has been given in your game"
      (game2.getPlayerName player ++ " gave the clue \x22" ++ word ++ "\x22 - " ++ toString number)
      fresh
  let o3 := broadcast sk cs gameId
      (Event.clueGiven clue.playerGivingClue clue.guessesLeft clue.clueWord)
  (gs4, o1 ++ o2 ++ o3)

/-- index.js endTurn: end the turn through the Game and broadcast turns when
the counter changed. -/
def endTurnI (sk : List (String × List Nat)) (cs : List WsConn)
    (gs : List (String × MGame)) (gameId : String) (fresh : MGame) :
    List (String × MGame) × List Out :=
  let (game, gs2) := getOrCreateGameG gs gameId fresh
  let turnsLeftBefore := game.getTurnsLeft
  let game2 := game.endTurn
  let gs3 := setKey gs2 gameId game2
  let turnsLeftAfter := game2.getTurnsLeft
  let o1 := if turnsLeftBefore ≠ turnsLeftAfter then
      broadcast sk cs gameId (Event.turns turnsLeftAfter) else []
  (gs3, o1)

/-- index.js makeGuess: guess through the Game; broadcast turns at before - 1
when the guessing player changed; always broadcast the guess result; notify
the other slot; then the trailing conditional turns broadcast of the source. -/
def makeGuessI (sk : List (String × List Nat)) (cs : List WsConn)
    (gs : List (String × MGame)) (gameId word player : String) (fresh : MGame) :
    List (String × MGame) × List Out :=
  let (game, gs2) := getOrCreateGameG gs gameId fresh
  let clueWord := match game.currentTurn with
    | some t => t.clueWord
    | none => ""
  let turnsLeftBefore := game.getTurnsLeft
  let (game2, guess) := game.guess word player
  let gs3 := setKey gs2 gameId game2
  let turnsLeftAfter := game2.getTurnsLeft
  let changed := match guess with
    | some r => r.2.2
    | none => false
  let o1 := if guess.isSome = true ∧ changed = true then
      broadcast sk cs gameId (Event.turns (turnsLeftBefore - 1)) else []
  let o2 := broadcast sk cs gameId (Event.guessI guess)
  let otherPlayer := if player = "one" then "two" else "one"
  let clueText := if clueWord ≠ "" then " for the clue \x22" ++ clueWord ++ "\x22" else ""
  let (gs4, o3) := iOSNotifyI gs3 gameId otherPlayer "A guess has been made in your game"
      (game2.getPlayerName player ++ " guessed \x22" ++ word ++ "\x22" ++ clueText) fresh
  let o4 := if (guess.isSome = true ∧ changed = false ∧ turnsLeftBefore ≠ turnsLeftAfter) ∨
      turnsLeftBefore - 1 > turnsLeftAfter then
      broadcast sk cs gameId (Event.turns turnsLeftAfter) else []
  (gs4, o1 ++ o2 ++ o3 ++ o4)

/-- index.js handleStartNewGame: read the names and tokens of the old game (note
the source reads the token of slot one for playerTwoToken, and restores slot
two only when that token is truthy), replace the game with a fresh one, then
send the whole game state to every registered connection. -/
def handleStartNewGameI (sk : List (String × List Nat)) (cs : List WsConn)
    (gs : List (String × MGame)) (gameId : String) (fresh : MGame) :
    List (String × MGame) × List Out :=
  let (game, gs2) := getOrCreateGameG gs gameId fresh
  let playerOneName := game.getPlayerName "one"
  let playerTwoName := game.getPlayerName "two"
  let playerOneToken := if playerOneName ≠ "" then game.getTokenForPlayer "one" else ""
  let playerTwoToken := if playerTwoName ≠ "" then game.getTokenForPlayer "one" else ""
  let g0 := fresh
  let g1 := if playerOneName ≠ "" then (g0.setPlayerName playerOneName "one" playerOneToken).1
      else g0
  let g2 := if playerTwoToken ≠ "" then (g1.setPlayerName playerTwoName "two" playerTwoToken).1
      else g1
  let gs3 := setKey gs2 gameId g2
  let ids := (lookupKey sk gameId).getD []
  let step := fun (acc : List (String × MGame) × List Out) (i : Nat) =>
    match lookupConn cs i with
    | some client =>
        let (gs5, o) := sendWholeGameStateI client acc.1 gameId fresh
        (gs5, acc.2 ++ o)
    | none => acc
  ids.foldl step (gs3, [])

/-- Membership of a connection id in the registered socket set of a game. -/
def memberOf (sk : List (String × List Nat)) (gameId : String) (i : Nat) : Bool :=
  match lookupKey sk gameId with
  | none => false
  | some ids => decide (i ∈ ids)

/-- index.js handlePlayerLeft: remove the connection from the socket
set, broadcast playerLeft with the shrunken count, free the player slot
unless a token is stored for it, then clear the ws fields. -/
def handlePlayerLeftI (c : WsConn) (sk : List (String × List Nat)) (cs : List WsConn)
    (gs : List (String × MGame)) (fresh : MGame) :
    WsConn × List (String × List Nat) × List (String × MGame) × List Out :=
  match c.gameId with
  | none => (c, sk, gs, [])
  | some gid =>
      let ids := (lookupKey sk gid).getD []
      let ids2 := ids.erase c.id
      let sk2 := setKey sk gid ids2
      let o1 := broadcast sk2 cs gid (Event.playerLeftI ids2.length c.playerName)
      let (game, gs2) := getOrCreateGameG gs gid fresh
      let gs3 :=
        if game.getTokenForPlayer c.player = "" then
          setKey gs2 gid (game.setPlayerName "" c.player "").1
        else gs2
      let c2 := { c with gameId := none, player := "", playerName := none }
      (c2, sk2, gs3, o1)

/-- index.js handlePlayerJoined: when a socket set exists, replay a
playerJoined unicast to the newcomer for every member with readyState 1 and
add the newcomer; otherwise create the set.  Then bind the connection to the
game, resolve the player slot through Game.setPlayerName, broadcast
playerJoined, and unicast playerChanged when the slot assignment changed. -/
def handlePlayerJoinedI (c : WsConn) (sk : List (String × List Nat)) (cs : List WsConn)
    (gs : List (String × MGame)) (gameId : String) (playerName : Option String)
    (token : String) (fresh : MGame) :
    WsConn × List (String × List Nat) × List (String × MGame) × List Out :=
  let (sk2, o1) :=
    match lookupKey sk gameId with
    | some ids =>
        let replay := (ids.filterMap (fun i => lookupConn cs i)).flatMap
          (fun client =>
            if client.readyState = 1 then
              send c (Event.playerJoinedI ids.length client.playerName client.player)
            else [])
        (setKey sk gameId (ids ++ [c.id]), replay)
    | none => (setKey sk gameId [c.id], [])
  let c2 := { c with gameId := some gameId, playerName := playerName }
  let (game, gs2) := getOrCreateGameG gs gameId fresh
  let (game2, player) := game.setPlayerName (playerName.getD "") "" token
  let gs3 := setKey gs2 gameId game2
  let count := ((lookupKey sk2 gameId).getD []).length
  let o2 := broadcast sk2 cs gameId (Event.playerJoinedI count playerName player)
  let (c3, o3) :=
    if c2.player ≠ player then
      let c3 := { c2 with player := player }
      (c3, send c3 (Event.playerChangedI player))
    else (c2, [])
  (c3, sk2, gs3, o1 ++ o2 ++ o3)

/-- index.js handlePlayerChanged: no-op when neither name nor slot changed;
with a defined playerName, broadcast playerLeft for the old binding, rebind
the slot through Game.setPlayerName and broadcast playerJoined; finally
unicast playerChanged and the words view for the (possibly new) slot. -/
def handlePlayerChangedI (c : WsConn) (sk : List (String × List Nat)) (cs : List WsConn)
    (gs : List (String × MGame)) (player : String) (playerName : Option String)
    (token : String) (fresh : MGame) :
    WsConn × List (String × MGame) × List Out :=
  if c.playerName = playerName ∧ player = c.player then (c, gs, [])
  else
    let gid := c.gameId.getD ""
    let count := ((lookupKey sk gid).getD []).length
    let (c2, gs2, player2, o1) :=
      match playerName with
      | some pn =>
          let w1 := broadcast sk cs gid (Event.playerLeftI count c.playerName)
          let (game, gsA) := getOrCreateGameG gs gid fresh
          let (game2, assigned) := game.setPlayerName pn c.player token
          let gsB := setKey gsA gid game2
          let cA := { c with playerName := some pn }
          let w2 := broadcast sk cs gid (Event.playerJoinedI count (some pn) "")
          (cA, gsB, assigned, w1 ++ w2)
      | none => (c, gs, player, [])
    let c3 := { c2 with player := player2 }
    let o2 := send c3 (Event.playerChangedI player2)
    let (gs3, raw, view, rawWords) := getWordsForPlayer gs2 gid c3.player fresh
    let o3 := send c3 (Event.wordsI gid raw view rawWords)
    (c3, gs3, o1 ++ o2 ++ o3)

/-- The payload fields the in-memory server reads from an inbound message
(playerName distinguishes the absent JS value from a supplied string, which
handlePlayerChanged tests with typeof). -/
structure PayloadI where
  playerName : Option String
  token : String
  player : String
  word : String
  number : Int
deriving DecidableEq, Repr

/-- An inbound socket message of the in-memory server. -/
structure InboundData where
  gameId : Option String
  type : String
  payload : PayloadI
deriving DecidableEq, Repr

/-- The switch statement of index.js handleRequest: dispatch the typed action.
None of these handlers writes the sockets map (they read it for broadcasts),
which the result type records by returning only the connection, the games map
and the outputs. -/
def dispatch (c : WsConn) (sk : List (String × List Nat)) (cs : List WsConn)
    (gs : List (String × MGame)) (gameId : String) (type : String) (p : PayloadI)
    (fresh : MGame) : WsConn × List (String × MGame) × List Out :=
  if type = "words" then
    let (gs2, o) := sendWholeGameStateI c gs gameId fresh
    (c, gs2, o)
  else if type = "guess" then
    let (gs2, o) := makeGuessI sk cs gs gameId p.word p.player fresh
    (c, gs2, o)
  else if type = "changePlayer" then
    handlePlayerChangedI c sk cs gs p.player p.playerName p.token fresh
  else if type = "giveClue" then
    let (gs2, o) := giveClueI sk cs gs gameId p.player p.word p.number fresh
    (c, gs2, o)
  else if type = "endTurn" then
    let (gs2, o) := endTurnI sk cs gs gameId fresh
    (c, gs2, o)
  else if type = "startNewGame" then
    let (gs2, o) := handleStartNewGameI sk cs gs gameId fresh
    (c, gs2, o)
  else (c, gs, [])

/-- The boot step of index.js handleRequest: a connection bound to a
different game with a registered socket set is first removed from that game
(the player has joined a different game). -/
def bootPhase (c : WsConn) (s : Server) (fresh : MGame) (gameId : String) :
    WsConn × List (String × List Nat) × List (String × MGame) × List Out :=
  match c.gameId with
  | some old =>
      if old ≠ gameId ∧ (lookupKey s.sockets old).isSome = true then
        handlePlayerLeftI c s.sockets s.conns s.games fresh
      else (c, s.sockets, s.games, [])
  | none => (c, s.sockets, s.games, [])

/-- The join step of index.js handleRequest: a connection not yet in the
live set of the game enters it through handlePlayerJoined. -/
def joinPhase (c : WsConn) (sk : List (String × List Nat)) (cs : List WsConn)
    (gs : List (String × MGame)) (gameId : String) (playerName : Option String)
    (token : String) (fresh : MGame) :
    WsConn × List (String × List Nat) × List (String × MGame) × List Out :=
  if memberOf sk gameId c.id = true then (c, sk, gs, [])
  else handlePlayerJoinedI c sk cs gs gameId playerName token fresh

/-- index.js handleRequest: ignore messages without a gameId; boot the
connection from a previous different game; join the connection to this game
when it is not yet in the live set (roster replay plus playerJoined); then
dispatch the typed action (which never writes the sockets map). -/
def handleRequest (c : WsConn) (s : Server) (d : InboundData) (fresh : MGame) :
    WsConn × Server × List Out :=
  match d.gameId with
  | none => (c, s, [])
  | some gameId =>
      let b := bootPhase c s fresh gameId
      let j := joinPhase b.1 b.2.1 s.conns b.2.2.1 gameId d.payload.playerName
        d.payload.token fresh
      let dp := dispatch j.1 j.2.1 s.conns j.2.2.1 gameId d.type d.payload fresh
      (dp.1, ⟨j.2.1, s.conns, dp.2.1⟩, b.2.2.2 ++ j.2.2.2 ++ dp.2.2)

/-- Either a process-level crash (an exception escaped the socket message
listener) or a normal result. -/
inductive CrashOr (α : Type)
  | crashed
  | ok (a : α)
deriving DecidableEq

/-- The ws message listener of index.js: JSON.parse runs on the raw payload
with no surrounding try/catch, so a parse failure raises an exception that
escapes the listener (crashing the process); on success handleRequest runs.
The parse function stands for JSON.parse, returning none exactly on inputs
whose parse throws. -/
def onMessageIndex (parse : String → Option InboundData) (raw : String) (c : WsConn)
    (s : Server) (fresh : MGame) : CrashOr (WsConn × Server × List Out) :=
  match parse raw with
  | none => CrashOr.crashed
  | some d => CrashOr.ok (handleRequest c s d fresh)

/-! ## Persisted variant (server portion of src/public/js/fetchers.js)

The RedisClient (redis.js) is not under src/; its operations are modelled
from the spec (section 4.3) and the repository README persisted layout
(per-game hash with turnsLeft, per-team player and token sets, per-word
role/reveal table, current-turn hash with clueGiverTeamId, clueWord,
clueNumber, guessesLeft).  The orchestration (giveClue, endTurn, makeGuess,
handlePlayerLeft, handleStartNewGame) is translated directly from the
source. -/

/-- The persisted current-turn hash (README layout: clueGiverTeamId,
clueWord, clueNumber, guessesLeft).  clueGiverTeamId keeps the dynamic value
the caller supplied. -/
structure RTurn where
  clueGiverTeamId : JVal
  clueWord : String
  clueNumber : Int
  guessesLeft : Int
deriving DecidableEq, Repr

/-- The persisted per-game record (README layout): word table, turn hash,
agents counters, turnsLeft, per-team player-id sets and token sets. -/
structure RGame where
  words : List (String × WordEntry)
  turn : Option RTurn
  agentsLeftTeamOne : Int
  agentsLeftTeamTwo : Int
  turnsLeft : Int
  teamOne : List Nat
  teamTwo : List Nat
  tokensOne : List String
  tokensTwo : List String
deriving DecidableEq, Repr

/-- A websocket connection of the persisted server, with the properties
fetchers.js documents on the ws object (gameId, playerId, teamId, token,
facebookId, playerName); teamId keeps its dynamic JS value because the
source compares it against both numbers and strings. -/
structure RConn where
  id : Nat
  gameId : String
  playerId : Option Nat
  teamId : JVal
  token : String
  facebookId : String
  playerName : String
  readyState : Nat
deriving DecidableEq, Repr

/-- Modelled from the spec: RedisClient.getTurnsLeft (redis.js not under
src/) — read the turnsLeft field of the game hash. -/
def db_getTurnsLeft (g : RGame) : Int := g.turnsLeft

/-- Modelled from the spec: RedisClient.setTurnsLeft (redis.js not under
src/) — write the turnsLeft field of the game hash. -/
def db_setTurnsLeft (g : RGame) (n : Int) : RGame := { g with turnsLeft := n }

/-- Modelled from the spec: RedisClient.setTurn with turn fields (redis.js
not under src/) — install the current-turn hash from its positional
arguments (clueGiverTeamId, clueWord, clueNumber, guessesLeft per the README
layout); spec 4.3 setTurn. -/
def db_setTurn (g : RGame) (clueGiverTeamId : JVal) (clueWord : String)
    (clueNumber guessesLeft : Int) : RGame :=
  { g with turn := some ⟨clueGiverTeamId, clueWord, clueNumber, guessesLeft⟩ }

/-- Modelled from the spec: RedisClient.setTurn called with only the game id
(redis.js not under src/) — clearTurn of spec 4.3: the turn record is
cleared. -/
def db_clearTurn (g : RGame) : RGame := { g with turn := none }

/-- Modelled from the spec: RedisClient.getTurn (redis.js not under src/). -/
def db_getTurn (g : RGame) : Option RTurn := g.turn

/-- Modelled from the spec: RedisClient.getTokensOnTeam (redis.js not under
src/) — the token set of the given (numeric) team. -/
def db_getTokensOnTeam (g : RGame) (teamId : Nat) : List String :=
  if teamId = 1 then g.tokensOne else g.tokensTwo

/-- Modelled from the spec: RedisClient.getAgentsLeft (redis.js not under
src/) — both agents counters of the game hash. -/
def db_getAgentsLeft (g : RGame) : Int × Int := (g.agentsLeftTeamOne, g.agentsLeftTeamTwo)

/-- Modelled from the spec: RedisClient.removePlayerFromTeam (redis.js not
under src/) — spec 4.3 removeFromTeam: drop the player id from the
team member set (and the token from its token set when one is supplied); a no-op
for a player not on the team. -/
def db_removePlayerFromTeam (g : RGame) (playerId : Option Nat) (teamId : JVal)
    (token : String) : RGame :=
  match playerId with
  | none => g
  | some pid =>
      if teamId.jeq (JVal.num 1) then
        { g with teamOne := g.teamOne.filter (fun p => p ≠ pid),
                 tokensOne := if token ≠ "" then g.tokensOne.filter (fun t => t ≠ token)
                   else g.tokensOne }
      else if teamId.jeq (JVal.num 2) then
        { g with teamTwo := g.teamTwo.filter (fun p => p ≠ pid),
                 tokensTwo := if token ≠ "" then g.tokensTwo.filter (fun t => t ≠ token)
                   else g.tokensTwo }
      else g

/-- Role and reveal flag of a word entry for a numeric team id (README packed
string field selection). -/
def WordEntry.roleForNum (e : WordEntry) (teamId : Nat) : Role :=
  if teamId = 1 then e.roleOne else e.roleTwo

/-- Reveal flag of a word entry for a numeric team id. -/
def WordEntry.revealedForNum (e : WordEntry) (teamId : Nat) : Bool :=
  if teamId = 1 then e.revealedOne else e.revealedTwo

/-- Mark revealed for a numeric team id, never touching the other team. -/
def WordEntry.revealForNum (e : WordEntry) (teamId : Nat) : WordEntry :=
  if teamId = 1 then { e with revealedOne := true } else { e with revealedTwo := true }

/-- The guess record the persisted makeGuess resolves with (word, its role
for the guessing team, and the updated turnsLeft the caller reads). -/
structure RGuess where
  word : String
  role : Role
  turnsLeft : Int
deriving DecidableEq, Repr

/-- Modelled from the spec: RedisClient.makeGuess (redis.js not under src/) —
recordGuess of spec 4.3 plus the guess step of spec 4.4: an unknown word or
a word already revealed for the guessing team resolves with nothing and
changes nothing (idempotent); otherwise the word is marked revealed for that
team only, the agents counter of that team is recomputed (spec invariant: the
count of words revealed for the team whose role for it is agent), the budget
is decremented when a clue is active, and the turn auto-ends (turn cleared,
turnsLeft decremented) when the budget reaches zero or the role is not
agent. -/
def db_makeGuess (g : RGame) (teamId : JVal) (word : String) : RGame × Option RGuess :=
  let team := if teamId.jeq (JVal.num 1) then 1
    else if teamId.jeq (JVal.num 2) then 2
    else 0
  if team = 0 then (g, none)
  else
    match lookupKey g.words word with
    | none => (g, none)
    | some e =>
        if e.revealedForNum team then (g, none)
        else
          let e2 := e.revealForNum team
          let words2 := setKey g.words word e2
          let revealedAgents := fun (tid : Nat) =>
            ((words2.filter (fun wv =>
              wv.2.revealedForNum tid && (wv.2.roleForNum tid == Role.agent))).length : Int)
          let alOne := if team = 1 then revealedAgents 1 else g.agentsLeftTeamOne
          let alTwo := if team = 2 then revealedAgents 2 else g.agentsLeftTeamTwo
          match g.turn with
          | none =>
              let g2 := { g with
                words := words2, agentsLeftTeamOne := alOne, agentsLeftTeamTwo := alTwo }
              (g2, some ⟨word, e.roleForNum team, g2.turnsLeft⟩)
          | some t =>
              let gl := t.guessesLeft - 1
              let ended := gl = 0 ∨ e.roleForNum team ≠ Role.agent
              let g2 :=
                if ended then
                  { g with
                    words := words2, agentsLeftTeamOne := alOne, agentsLeftTeamTwo := alTwo,
                    turn := none, turnsLeft := g.turnsLeft - 1 }
                else
                  { g with
                    words := words2, agentsLeftTeamOne := alOne, agentsLeftTeamTwo := alTwo,
                    turn := some { t with guessesLeft := gl } }
              (g2, some ⟨word, e.roleForNum team, g2.turnsLeft⟩)

/-- fetchers.js iOSNotify: returns without calling the notification service
when the token list is missing or empty; otherwise one fire-and-forget send
with the given tokens, title and body. -/
def iOSNotifyR (tokens : List String) (title body : String) : List Out :=
  if tokens.isEmpty then [] else [Out.notify tokens title body]

/-- fetchers.js giveClue: setTurn is called with the clue number in both the
clueNumber and guessesLeft positions; turns is broadcast only when turnsLeft
changed; the other team id is computed by comparing the numeric ws.teamId
against the string literal one; the clueGiven broadcast reports the raw clue
number.  Events are returned as the broadcast payload list for the game, the
notification as an Out list. -/
def fetchers_giveClue (c : RConn) (g : RGame) (clueWord : String) (clueNumber : Int) :
    RGame × List Event × List Out :=
  let turnsLeftBefore := db_getTurnsLeft g
  let g2 := db_setTurn g c.teamId clueWord clueNumber clueNumber
  let turnsLeftAfter := db_getTurnsLeft g2
  let e1 := if turnsLeftBefore ≠ turnsLeftAfter then [Event.turns turnsLeftAfter] else []
  let otherTeamId := if c.teamId.jeq (JVal.str "one") then 2 else 1
  let tokens := db_getTokensOnTeam g2 otherTeamId
  let n1 := iOSNotifyR tokens "A clue has been given in your game"
      (c.playerName ++ " gave the clue \x22" ++ clueWord ++ "\x22 - " ++ toString clueNumber)
  let e2 := [Event.clueGiven (if otherTeamId = 1 then "playerOne" else "playerTwo")
      clueNumber clueWord]
  (g2, e1 ++ e2, n1)

/-- fetchers.js endTurn: read turnsLeft, write turnsLeft - 1, clear the turn
hash, then broadcast turns with the decremented value unconditionally. -/
def fetchers_endTurn (g : RGame) : RGame × List Event :=
  let turnsLeft := db_getTurnsLeft g
  let g2 := db_setTurnsLeft g (turnsLeft - 1)
  let g3 := db_clearTurn g2
  (g3, [Event.turns (turnsLeft - 1)])

/-- fetchers.js makeGuess: read the active clue word and turnsLeft, guess
through the store; when the store resolves with nothing, return with no
broadcast and no notification; otherwise broadcast the guess with the agents
counters, notify the other (numeric) team with the stored player
name, and broadcast turns when turnsLeft changed.  playerNameOf stands for
the db.getPlayer lookup in the separate player store. -/
def fetchers_makeGuess (playerNameOf : Option Nat → String) (c : RConn) (g : RGame)
    (word : String) : RGame × List Event × List Out :=
  let clueWord := match db_getTurn g with
    | some t => t.clueWord
    | none => ""
  let turnsLeft := db_getTurnsLeft g
  let (g2, guess) := db_makeGuess g c.teamId word
  match guess with
  | none => (g2, [], [])
  | some r =>
      let (alOne, alTwo) := db_getAgentsLeft g2
      let e1 := [Event.guessR r.word r.role r.turnsLeft alOne alTwo]
      let clueText := if clueWord ≠ "" then " for the clue \x22" ++ clueWord ++ "\x22" else ""
      let otherTeamId := if c.teamId.jeq (JVal.num 1) then 2 else 1
      let tokens := db_getTokensOnTeam g2 otherTeamId
      let pname := playerNameOf c.playerId
      let n1 := iOSNotifyR tokens "A guess has been made in your game"
          (pname ++ " guessed \x22" ++ word ++ "\x22" ++ clueText)
      let e2 := if turnsLeft ≠ r.turnsLeft then [Event.turns r.turnsLeft] else []
      (g2, e1 ++ e2, n1)

/-- fetchers.js handlePlayerLeft: broadcast playerLeft when live connections
remain (liveCount is the socket set size after the close handler removed the
connection), then remove the player from their team only when the connection
has a truthy teamId and neither a facebookId nor a token (the durable
anchors); the removal promise result is discarded but the removal runs. -/
def fetchers_handlePlayerLeft (c : RConn) (g : RGame) (liveCount : Nat) :
    RGame × List Event :=
  let e1 := if liveCount ≠ 0 then
      [Event.playerLeftR liveCount c.playerName c.playerId c.teamId] else []
  let g2 :=
    if c.teamId.truthy = true ∧ c.facebookId = "" ∧ c.token = "" then
      db_removePlayerFromTeam g c.playerId c.teamId ""
    else g
  (g2, e1)

/-! ## Claim theorems -/

/-- C5: endTurn transitions the turn state to Idle and decrements turnsLeft
by exactly one, for every prior state including an already-Idle one, and the
turns broadcast carries the decremented value. -/
theorem endTurn_decrements_and_idles (g : RGame) :
    (fetchers_endTurn g).1.turnsLeft = g.turnsLeft - 1 ∧
    (fetchers_endTurn g).1.turn = none ∧
    (fetchers_endTurn g).2 = [Event.turns (g.turnsLeft - 1)] := by
  refine ⟨rfl, rfl, rfl⟩

/-- C3: a message whose payload fails to parse does not get dropped with the
state intact; the exception from JSON.parse escapes the message listener,
which is a process-level failure, contradicting the claim. -/
theorem malformed_message_crashes (parse : String → Option InboundData) (raw : String)
    (c : WsConn) (s : Server) (fresh : MGame) (h : parse raw = none) :
    onMessageIndex parse raw c s fresh = CrashOr.crashed := by
  simp [onMessageIndex, h]

/-- Witness for C3 at a concrete malformed input. -/
theorem malformed_message_crashes_witness :
    onMessageIndex (fun _ => none) "\x7b"
      ⟨0, none, "", none, 1⟩ ⟨[], [], []⟩ ⟨[], none, 0, "", "", "", ""⟩ =
      CrashOr.crashed :=
  malformed_message_crashes (fun _ => none) "\x7b" ⟨0, none, "", none, 1⟩ ⟨[], [], []⟩
    ⟨[], none, 0, "", "", "", ""⟩ rfl

/-- C10: send writes only when the client readyState is 1; every socket write
a broadcast produces targets a registered connection with readyState 1; and
broadcasting to a game with no registered connection set produces nothing. -/
theorem send_broadcast_only_open :
    (∀ (c : WsConn) (e : Event), send c e ≠ [] → c.readyState = 1) ∧
    (∀ (sk : List (String × List Nat)) (cs : List WsConn) (gid : String) (e : Event)
      (i : Nat) (ev : Event), Out.sock i ev ∈ broadcast sk cs gid e →
        ∃ cl, cl ∈ cs ∧ cl.id = i ∧ cl.readyState = 1 ∧ ev = e) ∧
    (∀ (sk : List (String × List Nat)) (cs : List WsConn) (gid : String) (e : Event),
      lookupKey sk gid = none → broadcast sk cs gid e = []) := by
  refine ⟨?_, ?_, ?_⟩
  · intro c e h
    by_cases hr : c.readyState = 1
    · exact hr
    · simp [send, hr] at h
  · intro sk cs gid e i ev hmem
    unfold broadcast at hmem
    cases hsk : lookupKey sk gid with
    | none => simp [hsk] at hmem
    | some ids =>
        rw [hsk] at hmem
        rw [List.mem_flatMap] at hmem
        obtain ⟨cl, hcl, hout⟩ := hmem
        rw [List.mem_filterMap] at hcl
        obtain ⟨j, _, hfind⟩ := hcl
        by_cases hr : cl.readyState = 1
        · refine ⟨cl, ?_, ?_, hr, ?_⟩
          · exact List.mem_of_find?_eq_some hfind
          · simp [send, hr] at hout
            exact hout.1.symm
          · simp [send, hr] at hout
            exact hout.2
        · simp [send, hr] at hout
  · intro sk cs gid e h
    simp [broadcast, h]

/-- Witness for C10: a concrete open connection is written to, and a
broadcast into an empty registry is empty. -/
theorem send_broadcast_only_open_witness :
    ((send ⟨5, none, "", none, 1⟩ (Event.turns 2) ≠ []) ∧
      (⟨5, none, "", none, 1⟩ : WsConn).readyState = 1) ∧
    broadcast [] [] "g" (Event.turns 2) = [] :=
  ⟨⟨by decide, send_broadcast_only_open.1 ⟨5, none, "", none, 1⟩ (Event.turns 2) (by decide)⟩,
    send_broadcast_only_open.2.2 [] [] "g" (Event.turns 2) rfl⟩

/-- C4 failing input: a game where team one has a name but no token and team
two has a name and a token. -/
def gx4 : MGame := ⟨[], none, 9, "Ada", "Grace", "", "T2"⟩

/-- C4 fresh game supplied to new Game(). -/
def freshx4 : MGame := ⟨[], none, 9, "", "", "", ""⟩

/-- C4: startNewGame does not preserve team membership: with the failing
input, the source reads the slot-one token for playerTwoToken and restores
slot two only when that token is truthy, so the name and token of Grace are
dropped from the replaced game while the slot of Ada is restored. -/
theorem startNewGame_drops_team_two :
    gx4.nameTwo = "Grace" ∧ gx4.tokenTwo = "T2" ∧
    (lookupKey (handleStartNewGameI [] [] [("g", gx4)] "g" freshx4).1 "g").map
      MGame.nameTwo = some "" ∧
    (lookupKey (handleStartNewGameI [] [] [("g", gx4)] "g" freshx4).1 "g").map
      MGame.tokenTwo = some "" ∧
    (lookupKey (handleStartNewGameI [] [] [("g", gx4)] "g" freshx4).1 "g").map
      MGame.nameOne = some "Ada" := by
  refine ⟨rfl, rfl, ?_, ?_, ?_⟩ <;> rfl

/-- C2 failing input: an acting connection on numeric team 1 in a game where
both teams have registered tokens. -/
def cx2 : RConn := ⟨7, "g", some 42, JVal.num 1, "tokActor", "", "Ada", 1⟩

/-- C2 failing game state. -/
def gx2 : RGame := ⟨[], none, 0, 0, 5, [42], [43], ["t1a", "t1b"], ["t2a"]⟩

/-- C2: in the persisted giveClue the other-team computation compares the
numeric ws.teamId against the string literal one, which is never equal, so
otherTeamId is always 1: with team 1 acting, the notification goes to team
1 itself instead of team 2. -/
theorem giveClue_notifies_acting_team_bug :
    cx2.teamId = JVal.num 1 ∧
    (fetchers_giveClue cx2 gx2 "robot" 2).2.2 =
      [Out.notify gx2.tokensOne "A clue has been given in your game"
        "Ada gave the clue \x22robot\x22 - 2"] ∧
    gx2.tokensOne ≠ gx2.tokensTwo := by
  refine ⟨rfl, ?_, by decide⟩
  rfl

/-- C1 counterexample input: an idle game and a clue from numeric team 2 with
number 2. -/
def cx1 : RConn := ⟨8, "g", some 44, JVal.num 2, "", "", "Bea", 1⟩

/-- C1 counterexample game. -/
def gx1 : RGame := ⟨[], none, 0, 0, 5, [42], [44], ["t1a"], ["t2a"]⟩

/-- The clue number carried by a clueGiven event. -/
def Event.clueNumber : Event → Option Int
  | .clueGiven _ n _ => some n
  | _ => none

/-- C1 counterexample: giveClue from Idle with number 2 in the persisted
variant stores guessesLeft 2 (not 3) in the turn hash and broadcasts
clueGiven with number 2 (not 3), refuting the claimed n + 1 budget report. -/
theorem giveClue_broadcast_budget_cex :
    ((fetchers_giveClue cx1 gx1 "robot" 2).1.turn.map RTurn.guessesLeft = some 2) ∧
    ((fetchers_giveClue cx1 gx1 "robot" 2).2.1.filterMap Event.clueNumber = [2]) ∧
    ¬ (((fetchers_giveClue cx1 gx1 "robot" 2).1.turn.map RTurn.guessesLeft = some (2 + 1)) ∧
      ((fetchers_giveClue cx1 gx1 "robot" 2).2.1.filterMap Event.clueNumber = [2 + 1])) := by
  refine ⟨rfl, rfl, ?_⟩
  intro hcontra
  have h1 := hcontra.1
  rw [show (fetchers_giveClue cx1 gx1 "robot" 2).1.turn.map RTurn.guessesLeft = some 2 from rfl]
    at h1
  simp at h1

/-- C6: guessing a word already revealed for the guessing team is a complete
no-op in the persisted variant: the game state (all counters and reveal
flags) is returned unchanged and no broadcast and no notification is
produced. -/
theorem makeGuess_idempotent_on_revealed (pn : Option Nat → String) (c : RConn) (g : RGame)
    (word : String) (e : WordEntry) (t : Nat) (hteam : c.teamId = JVal.num t)
    (ht : t = 1 ∨ t = 2) (hw : lookupKey g.words word = some e)
    (hr : e.revealedForNum t = true) :
    fetchers_makeGuess pn c g word = (g, [], []) := by
  have hdb : db_makeGuess g c.teamId word = (g, none) := by
    rcases ht with h1 | h2
    · subst h1
      rw [hteam] at *
      simp [db_makeGuess, JVal.jeq, hw, hr]
    · subst h2
      rw [hteam] at *
      simp [db_makeGuess, JVal.jeq, hw, hr]
  unfold fetchers_makeGuess
  rw [hdb]

/-- Witness for C6 at a concrete revealed word. -/
theorem makeGuess_idempotent_on_revealed_witness :
    fetchers_makeGuess (fun _ => "P")
      ⟨3, "g", some 9, JVal.num 1, "", "", "P", 1⟩
      ⟨[("cat", ⟨Role.agent, Role.decoy, true, false⟩)],
        some ⟨JVal.num 1, "pets", 2, 2⟩, 1, 0, 5, [9], [], [], []⟩ "cat" =
      (⟨[("cat", ⟨Role.agent, Role.decoy, true, false⟩)],
        some ⟨JVal.num 1, "pets", 2, 2⟩, 1, 0, 5, [9], [], [], []⟩, [], []) :=
  makeGuess_idempotent_on_revealed (fun _ => "P")
    ⟨3, "g", some 9, JVal.num 1, "", "", "P", 1⟩
    ⟨[("cat", ⟨Role.agent, Role.decoy, true, false⟩)],
      some ⟨JVal.num 1, "pets", 2, 2⟩, 1, 0, 5, [9], [], [], []⟩
    "cat" ⟨Role.agent, Role.decoy, true, false⟩ 1 rfl (Or.inl rfl) rfl rfl

/-- C8: on disconnect cleanup, a connection with no durable anchor (neither a
facebookId nor a token) has its player removed from the member set of its team,
while a connection holding either anchor leaves the game state entirely
unchanged, preserving team membership for a later reconnect. -/
theorem disconnect_membership_cleanup (c : RConn) (g : RGame) (lc : Nat) (t pid : Nat)
    (hteam : c.teamId = JVal.num t) (ht : t = 1 ∨ t = 2) :
    (c.facebookId = "" → c.token = "" → c.playerId = some pid →
      pid ∉ (if t = 1 then (fetchers_handlePlayerLeft c g lc).1.teamOne
             else (fetchers_handlePlayerLeft c g lc).1.teamTwo)) ∧
    ((c.facebookId ≠ "" ∨ c.token ≠ "") → (fetchers_handlePlayerLeft c g lc).1 = g) := by
  constructor
  · intro hfb htok hpid
    have htru : c.teamId.truthy = true := by
      rw [hteam]
      rcases ht with h | h <;> subst h <;> rfl
    have hcond : (c.teamId.truthy = true ∧ c.facebookId = "" ∧ c.token = "") := ⟨htru, hfb, htok⟩
    rcases ht with h | h <;> subst h <;>
      simp [fetchers_handlePlayerLeft, hteam, hpid, hfb, htok, JVal.truthy,
        db_removePlayerFromTeam, JVal.jeq, List.mem_filter]
  · intro hanchor
    have hcond : ¬ (c.teamId.truthy = true ∧ c.facebookId = "" ∧ c.token = "") := by
      rcases hanchor with h | h
      · intro hc
        exact h hc.2.1
      · intro hc
        exact h hc.2.2
    simp only [fetchers_handlePlayerLeft, if_neg hcond]

/-- Witness for C8: a tokenless, facebookless connection on team 1 is removed
from membership, and a connection holding a token keeps the state intact. -/
theorem disconnect_membership_cleanup_witness :
    (42 ∉ (fetchers_handlePlayerLeft ⟨3, "g", some 42, JVal.num 1, "", "", "P", 1⟩
      ⟨[], none, 0, 0, 5, [42], [], [], []⟩ 1).1.teamOne) ∧
    (fetchers_handlePlayerLeft ⟨4, "g", some 42, JVal.num 1, "tokP", "", "P", 1⟩
      ⟨[], none, 0, 0, 5, [42], [], [], []⟩ 1).1 = ⟨[], none, 0, 0, 5, [42], [], [], []⟩ := by
  constructor
  · have h := (disconnect_membership_cleanup
      ⟨3, "g", some 42, JVal.num 1, "", "", "P", 1⟩
      ⟨[], none, 0, 0, 5, [42], [], [], []⟩ 1 1 42 rfl (Or.inl rfl)).1 rfl rfl rfl
    simpa using h
  · exact (disconnect_membership_cleanup
      ⟨4, "g", some 42, JVal.num 1, "tokP", "", "P", 1⟩
      ⟨[], none, 0, 0, 5, [42], [], [], []⟩ 1 1 42 rfl (Or.inl rfl)).2 (Or.inr (by decide))

/-- C7 counterexample game: one word, unrevealed for both teams, whose role
for team two is agent. -/
def gx7 : MGame := ⟨[("android", ⟨Role.bystander, Role.agent, false, false⟩)],
  none, 9, "Ada", "", "", ""⟩

/-- C7 fresh game (irrelevant, the game exists). -/
def freshx7 : MGame := ⟨[], none, 9, "", "", "", ""⟩

/-- C7 counterexample: a connection with no resolved player (empty player
slot) receives the raw word table, which carries the team-two agent role for a
word not revealed to team two — the unrevealed role assignment
of the opposing team appears in the outbound projection. -/
theorem wordsView_unresolved_player_leak_cex :
    (getWordsForPlayer [("g", gx7)] "g" "" freshx7).2 =
      (true, [], [("android", ⟨Role.bystander, Role.agent, false, false⟩)]) ∧
    (⟨Role.bystander, Role.agent, false, false⟩ : WordEntry).revealedTwo = false ∧
    (⟨Role.bystander, Role.agent, false, false⟩ : WordEntry).roleTwo = Role.agent := by
  refine ⟨rfl, rfl, rfl⟩

/-- Replace the team-two role of every word (keeping the team-one role and all
reveal flags), to state that a team-one view cannot depend on it. -/
def mapRoleTwo (g : MGame) (f : String → Role) : MGame :=
  { g with words := g.words.map (fun wv => (wv.1, { wv.2 with roleTwo := f wv.1 })) }

/-- Replace the team-one role of every word (keeping the team-two role and all
reveal flags). -/
def mapRoleOne (g : MGame) (f : String → Role) : MGame :=
  { g with words := g.words.map (fun wv => (wv.1, { wv.2 with roleOne := f wv.1 })) }

/-- C7 amended: for a connection with a resolved player slot the outbound
words payload is the filtered view of that team and is invariant under arbitrary
changes to the role assignments of the opposing team (so those roles never appear
in it); but for a connection with no resolved player the payload is the raw
unfiltered word table. -/
theorem wordsView_filtering_amended :
    (∀ (g : MGame) (f : String → Role),
      (mapRoleTwo g f).getViewForPlayer "one" = g.getViewForPlayer "one") ∧
    (∀ (g : MGame) (f : String → Role),
      (mapRoleOne g f).getViewForPlayer "two" = g.getViewForPlayer "two") ∧
    (∀ (gs : List (String × MGame)) (gid : String) (fresh g : MGame),
      lookupKey gs gid = some g →
      getWordsForPlayer gs gid "" fresh = (gs, true, [], g.words)) := by
  refine ⟨?_, ?_, ?_⟩
  · intro g f
    simp [MGame.getViewForPlayer, mapRoleTwo]
  · intro g f
    simp [MGame.getViewForPlayer, mapRoleOne]
  · intro gs gid fresh g h
    simp [getWordsForPlayer, getOrCreateGameG, h, MGame.getWords]

/-- Witness for C7 amended at concrete inputs. -/
theorem wordsView_filtering_amended_witness :
    ((mapRoleTwo gx7 (fun _ => Role.assassin)).getViewForPlayer "one" =
      gx7.getViewForPlayer "one") ∧
    getWordsForPlayer [("g", gx7)] "g" "" freshx7 = ([("g", gx7)], true, [], gx7.words) :=
  ⟨wordsView_filtering_amended.1 gx7 (fun _ => Role.assassin),
    wordsView_filtering_amended.2.2 [("g", gx7)] "g" freshx7 gx7 rfl⟩

/-- C1 amended: from Idle, the in-memory giveClue installs a turn record with
guessesLeft = n + 1 and its clueGiven broadcast reports that budget; the
persisted giveClue stores guessesLeft = n in the turn hash and its clueGiven
broadcast reports the stated clue number n. -/
theorem giveClue_budget_amended (sk : List (String × List Nat)) (cs : List WsConn)
    (gs : List (String × MGame)) (gid player word : String) (n : Int) (fresh g : MGame)
    (hg : lookupKey gs gid = some g) (hidle : g.currentTurn = none)
    (c : RConn) (rg : RGame) (w : String) (m : Int) :
    ((lookupKey (giveClueI sk cs gs gid player word n fresh).1 gid).bind
        MGame.currentTurn = some ⟨player, word, n + 1⟩) ∧
    ((giveClueI sk cs gs gid player word n fresh).2 =
      [Out.notify [g.getTokenForPlayer (if player = "one" then "two" else "one")]
        "A clue has been given in your game"
        (g.getPlayerName player ++ " gave the clue \x22" ++ word ++ "\x22 - " ++ toString n)]
      ++ broadcast sk cs gid (Event.clueGiven player (n + 1) word)) ∧
    ((fetchers_giveClue c rg w m).1.turn = some ⟨c.teamId, w, m, m⟩) ∧
    ((fetchers_giveClue c rg w m).2.1 =
      [Event.clueGiven (if c.teamId.jeq (JVal.str "one") then "playerTwo" else "playerOne")
        m w]) := by
  refine ⟨?_, ?_, ?_, ?_⟩
  · by_cases hp : player = "one" <;>
      simp [giveClueI, getOrCreateGameG, hg, hidle, MGame.giveClueForTurn,
        MGame.getTurnsLeft, iOSNotifyI, lookupKey_setKey_same, hp, MGame.getCurrentClue]
  · by_cases hp : player = "one" <;>
      simp [giveClueI, getOrCreateGameG, hg, hidle, MGame.giveClueForTurn,
        MGame.getTurnsLeft, iOSNotifyI, lookupKey_setKey_same, hp,
        MGame.getTokenForPlayer, MGame.getPlayerName]
  · rfl
  · by_cases hj : c.teamId.jeq (JVal.str "one") = true <;>
      simp [fetchers_giveClue, db_setTurn, db_getTurnsLeft, hj]

/-- C1 witness inputs: an idle in-memory game with named slots. -/
def gw1 : MGame := ⟨[], none, 9, "Ada", "Bea", "tA", "tB"⟩

/-- C1 witness fresh game. -/
def freshw1 : MGame := ⟨[], none, 9, "", "", "", ""⟩

/-- C1 witness connection for the persisted conjunct. -/
def cw1 : RConn := ⟨2, "g", some 5, JVal.num 1, "", "", "Ada", 1⟩

/-- C1 witness persisted game. -/
def rgw1 : RGame := ⟨[], none, 0, 0, 4, [5], [], ["tA"], []⟩

/-- Witness for C1 amended at concrete inputs. -/
theorem giveClue_budget_amended_witness :
    ((lookupKey (giveClueI [] [] [("g", gw1)] "g" "one" "robot" 2 freshw1).1 "g").bind
        MGame.currentTurn = some ⟨"one", "robot", 2 + 1⟩) ∧
    ((fetchers_giveClue cw1 rgw1 "x" 1).1.turn = some ⟨JVal.num 1, "x", 1, 1⟩) :=
  ⟨(giveClue_budget_amended [] [] [("g", gw1)] "g" "one" "robot" 2 freshw1 gw1 rfl rfl
      cw1 rgw1 "x" 1).1,
    (giveClue_budget_amended [] [] [("g", gw1)] "g" "one" "robot" 2 freshw1 gw1 rfl rfl
      cw1 rgw1 "x" 1).2.2.1⟩

theorem handlePlayerLeftI_conn (c : WsConn) (sk : List (String × List Nat))
    (cs : List WsConn) (gs : List (String × MGame)) (fresh : MGame) :
    (handlePlayerLeftI c sk cs gs fresh).1.id = c.id ∧
    (handlePlayerLeftI c sk cs gs fresh).1.readyState = c.readyState := by
  cases hg : c.gameId <;> simp [handlePlayerLeftI, hg]

theorem handlePlayerLeftI_sockets (c : WsConn) (sk : List (String × List Nat))
    (cs : List WsConn) (gs : List (String × MGame)) (fresh : MGame) (old : String)
    (h : c.gameId = some old) :
    (handlePlayerLeftI c sk cs gs fresh).2.1 =
      setKey sk old (((lookupKey sk old).getD []).erase c.id) := by
  simp [handlePlayerLeftI, h]

theorem bootPhase_conn (c : WsConn) (s : Server) (fresh : MGame) (gid : String) :
    (bootPhase c s fresh gid).1.id = c.id ∧
    (bootPhase c s fresh gid).1.readyState = c.readyState := by
  cases hg : c.gameId with
  | none => simp [bootPhase, hg]
  | some old =>
      by_cases hc : old ≠ gid ∧ (lookupKey s.sockets old).isSome = true
      · simp only [bootPhase, hg, if_pos hc]
        exact handlePlayerLeftI_conn c s.sockets s.conns s.games fresh
      · simp [bootPhase, hg, hc]

theorem bootPhase_sockets_at (c : WsConn) (s : Server) (fresh : MGame) (gid : String) :
    lookupKey (bootPhase c s fresh gid).2.1 gid = lookupKey s.sockets gid := by
  cases hg : c.gameId with
  | none => simp [bootPhase, hg]
  | some old =>
      by_cases hc : old ≠ gid ∧ (lookupKey s.sockets old).isSome = true
      · simp only [bootPhase, hg, if_pos hc]
        rw [handlePlayerLeftI_sockets c s.sockets s.conns s.games fresh old hg]
        exact lookupKey_setKey_other _ _ _ _ hc.1
      · simp [bootPhase, hg, hc]

theorem handlePlayerJoinedI_sockets (c : WsConn) (sk : List (String × List Nat))
    (cs : List WsConn) (gs : List (String × MGame)) (gid : String)
    (pn : Option String) (tok : String) (fresh : MGame) :
    (handlePlayerJoinedI c sk cs gs gid pn tok fresh).2.1 =
      setKey sk gid (((lookupKey sk gid).getD []) ++ [c.id]) := by
  cases hsk : lookupKey sk gid <;> simp [handlePlayerJoinedI, hsk]

theorem handlePlayerJoinedI_replay_mem (c : WsConn) (sk : List (String × List Nat))
    (cs : List WsConn) (gs : List (String × MGame)) (gid : String)
    (pn : Option String) (tok : String) (fresh : MGame) (ids : List Nat) (x : Out)
    (h : lookupKey sk gid = some ids)
    (hx : x ∈ (ids.filterMap (fun i => lookupConn cs i)).flatMap
      (fun client => if client.readyState = 1 then
        send c (Event.playerJoinedI ids.length client.playerName client.player) else [])) :
    x ∈ (handlePlayerJoinedI c sk cs gs gid pn tok fresh).2.2.2 := by
  simp only [handlePlayerJoinedI, h]
  exact List.mem_append_left _ (List.mem_append_left _ hx)

/-- C9: for every inbound message carrying a gameId, the sender is a member
of the live connection set of that game after handleRequest, whatever the message
type; and when the sender was not yet in an existing live set, the roster of
live open connections is replayed to it (one playerJoined unicast per open
member) before the dispatch output. -/
theorem handleRequest_sender_in_live_set (c : WsConn) (s : Server) (d : InboundData)
    (fresh : MGame) (gid : String) (h : d.gameId = some gid) :
    memberOf (handleRequest c s d fresh).2.1.sockets gid c.id = true ∧
    (∀ ids, lookupKey s.sockets gid = some ids → c.id ∉ ids → c.readyState = 1 →
      ∀ cl, cl ∈ ids.filterMap (fun i => lookupConn s.conns i) → cl.readyState = 1 →
        Out.sock c.id (Event.playerJoinedI ids.length cl.playerName cl.player) ∈
          (handleRequest c s d fresh).2.2) := by
  have hsR : (handleRequest c s d fresh).2.1.sockets =
      (joinPhase (bootPhase c s fresh gid).1 (bootPhase c s fresh gid).2.1 s.conns
        (bootPhase c s fresh gid).2.2.1 gid d.payload.playerName d.payload.token
        fresh).2.1 := by
    simp only [handleRequest, h]
  have hoR : (handleRequest c s d fresh).2.2 =
      (bootPhase c s fresh gid).2.2.2 ++
      (joinPhase (bootPhase c s fresh gid).1 (bootPhase c s fresh gid).2.1 s.conns
        (bootPhase c s fresh gid).2.2.1 gid d.payload.playerName d.payload.token
        fresh).2.2.2 ++
      (dispatch (joinPhase (bootPhase c s fresh gid).1 (bootPhase c s fresh gid).2.1
          s.conns (bootPhase c s fresh gid).2.2.1 gid d.payload.playerName
          d.payload.token fresh).1
        (joinPhase (bootPhase c s fresh gid).1 (bootPhase c s fresh gid).2.1 s.conns
          (bootPhase c s fresh gid).2.2.1 gid d.payload.playerName d.payload.token
          fresh).2.1
        s.conns
        (joinPhase (bootPhase c s fresh gid).1 (bootPhase c s fresh gid).2.1 s.conns
          (bootPhase c s fresh gid).2.2.1 gid d.payload.playerName d.payload.token
          fresh).2.2.1
        gid d.type d.payload fresh).2.2 := by
    simp only [handleRequest, h]
  obtain ⟨hid, hrs⟩ := bootPhase_conn c s fresh gid
  have hlk := bootPhase_sockets_at c s fresh gid
  constructor
  · rw [hsR]
    unfold joinPhase
    by_cases hm : memberOf (bootPhase c s fresh gid).2.1 gid
        (bootPhase c s fresh gid).1.id = true
    · rw [if_pos hm]
      rw [hid] at hm
      exact hm
    · rw [if_neg hm]
      rw [handlePlayerJoinedI_sockets]
      simp [memberOf, lookupKey_setKey_same, hid]
  · intro ids hids hnot hrs1 cl hcl hclrs
    have hlk2 : lookupKey (bootPhase c s fresh gid).2.1 gid = some ids := by
      rw [hlk]
      exact hids
    have hm : ¬ memberOf (bootPhase c s fresh gid).2.1 gid
        (bootPhase c s fresh gid).1.id = true := by
      simp [memberOf, hlk2, hid]
      exact hnot
    have hxin : Out.sock c.id (Event.playerJoinedI ids.length cl.playerName cl.player) ∈
        (((ids.filterMap (fun i => lookupConn s.conns i)).flatMap
          (fun client => if client.readyState = 1 then
            send (bootPhase c s fresh gid).1
              (Event.playerJoinedI ids.length client.playerName client.player)
          else []))) := by
      rw [List.mem_flatMap]
      refine ⟨cl, hcl, ?_⟩
      rw [if_pos hclrs]
      have hsend : send (bootPhase c s fresh gid).1
          (Event.playerJoinedI ids.length cl.playerName cl.player) =
          [Out.sock c.id (Event.playerJoinedI ids.length cl.playerName cl.player)] := by
        rw [send, if_pos (by rw [hrs]; exact hrs1), hid]
      rw [hsend]
      exact List.mem_singleton.mpr rfl
    have hxj : Out.sock c.id (Event.playerJoinedI ids.length cl.playerName cl.player) ∈
        (joinPhase (bootPhase c s fresh gid).1 (bootPhase c s fresh gid).2.1 s.conns
          (bootPhase c s fresh gid).2.2.1 gid d.payload.playerName d.payload.token
          fresh).2.2.2 := by
      unfold joinPhase
      rw [if_neg hm]
      exact handlePlayerJoinedI_replay_mem _ _ _ _ _ _ _ _ _ _ hlk2 hxin
    rw [hoR]
    exact List.mem_append_left _ (List.mem_append_right _ hxj)

/-- C9 witness connection already live in the game. -/
def clive9 : WsConn := ⟨1, some "g", "one", some "Olga", 1⟩

/-- C9 witness server: one game with one live open connection. -/
def srv9 : Server := ⟨[("g", [1])], [clive9], [("g", ⟨[], none, 9, "Olga", "", "", ""⟩)]⟩

/-- C9 witness newcomer connection. -/
def cnew9 : WsConn := ⟨2, none, "", none, 1⟩

/-- C9 witness inbound message. -/
def dmsg9 : InboundData := ⟨some "g", "words", ⟨none, "", "", "", 0⟩⟩

/-- C9 witness fresh game. -/
def freshx9 : MGame := ⟨[], none, 9, "", "", "", ""⟩

/-- Witness for C9: the newcomer ends up in the live set and receives the
roster replay unicast for the existing open connection. -/
theorem handleRequest_sender_in_live_set_witness :
    memberOf (handleRequest cnew9 srv9 dmsg9 freshx9).2.1.sockets "g" 2 = true ∧
    Out.sock 2 (Event.playerJoinedI 1 (some "Olga") "one") ∈
      (handleRequest cnew9 srv9 dmsg9 freshx9).2.2 := by
  have T := handleRequest_sender_in_live_set cnew9 srv9 dmsg9 freshx9 "g" rfl
  refine ⟨T.1, ?_⟩
  have hcl : clive9 ∈ ([1] : List Nat).filterMap (fun i => lookupConn srv9.conns i) := by
    decide
  exact T.2 [1] rfl (by decide) rfl clive9 hcl rfl
